import Mathlib

/-!
A verification development for the scout-bot repository.

The embedding covers:
* `VHSBerlinScout.parse_results` (src/scouts/vhs_berlin.py) — classification
  of a result page into a result dictionary;
* `VHSBerlinScout._follow_redirects` and the POST status check of
  `VHSBerlinScout.perform_search` (src/scouts/vhs_berlin.py);
* `random_delay`, `save_run_number`, `load_run_number` (src/core/utils.py);
* the per-run retry loop of `BaseScout.run` (src/core/base_scout.py).

HTML pages are embedded at the level of the CSS-selector results the code
reads (the text of the error element, the title element, the summary element,
and the three cells of each data row); the BeautifulSoup selector machinery
itself is an external library.  HTTP traffic is embedded as an oracle mapping
a request to the response the session returns.  Real-valued delay arithmetic
is embedded over `ℚ` (exact arithmetic; the Python code uses floats).
-/

namespace ScoutBot

/-- Substring test on character lists: `containsSub needle hay` is `true`
iff `needle` occurs contiguously inside `hay`.  Models Python's
`needle in hay` on strings. -/
def containsSub (needle : List Char) : List Char → Bool
  | [] => needle.isEmpty
  | c :: t => needle.isPrefixOf (c :: t) || containsSub needle t

/-- Python's `needle in hay` on strings. -/
def strContains (needle hay : String) : Bool :=
  containsSub needle.data hay.data

/-- Python's `str.strip` restricted to one side, on character lists. -/
def dropWS (ws : Char → Bool) (cs : List Char) : List Char :=
  cs.dropWhile ws

/-- The whitespace characters removed by Python's `str.strip()`. -/
def isWS (c : Char) : Bool :=
  c = ' ' || c = '\t' || c = '\n' || c = '\r' || c = '\x0b' || c = '\x0c'

/-- Python's `str.strip()` on character lists: whitespace removed from both
ends. -/
def trimChars (cs : List Char) : List Char :=
  ((cs.dropWhile isWS).reverse.dropWhile isWS).reverse

/-- Python's `str.strip()` on strings. -/
def strip (s : String) : String :=
  ⟨trimChars s.data⟩

/-- The decimal digit character for `d` (meaningful for `d < 10`). -/
def digitChar (d : Nat) : Char :=
  Char.ofNat (48 + d)

/-- The decimal representation of a natural number, as produced by Python's
`str` on a non-negative `int`. -/
def natRepr (n : Nat) : List Char :=
  if n < 10 then [digitChar n]
  else natRepr (n / 10) ++ [digitChar (n % 10)]
termination_by n
decreasing_by exact Nat.div_lt_self (by omega) (by omega)

/-- The decimal representation of an integer, as produced by Python's `str`. -/
def intRepr (i : Int) : List Char :=
  if i < 0 then '-' :: natRepr i.natAbs else natRepr i.toNat

/-- The numeric value of a list of decimal digit characters. -/
def digitsToNat (ds : List Char) : Nat :=
  ds.foldl (fun a c => a * 10 + (c.toNat - 48)) 0

/-- Parse an unsigned decimal numeral: all characters must be digits and the
list must be non-empty, as required by Python's `int`. -/
def parseNatDigits (cs : List Char) : Option Nat :=
  if cs.isEmpty then none
  else if cs.all Char.isDigit then some (digitsToNat cs) else none

/-- Parse a decimal integer with an optional leading minus sign (the forms
Python's `int` accepts that `str` on an `int` can produce). -/
def parseInt (cs : List Char) : Option Int :=
  if cs.head? = some '-' then (parseNatDigits cs.tail).map (fun n => -(n : Int))
  else (parseNatDigits cs).map (fun n => (n : Int))

/-! ## The run-number store (src/core/utils.py, save_run_number / load_run_number)

The file `run_number.txt` is embedded as `Option (List Char)`: `none` when the
file does not exist (the empty store), `some cs` when it holds the characters
`cs`.  `save_run_number` overwrites the file with `str(run_num)`;
`load_run_number` reads the file, strips it, and parses an integer, returning
`0` on any failure (missing file or unparsable contents). -/

/-- Model of `save_run_number(run_num)`: write `str(run_num)` to the store. -/
def save_run_number (run_num : Int) : Option (List Char) :=
  some (intRepr run_num)

/-- Model of `load_run_number()`: read the store, strip, parse an int; any exception
(missing file, parse failure) yields `0`. -/
def load_run_number (store : Option (List Char)) : Int :=
  match store with
  | none => 0
  | some content =>
    match parseInt (trimChars content) with
    | some n => n
    | none => 0

/-! ## Jittered delay (src/core/utils.py, random_delay)

`random_delay(base_seconds)` computes `jitter = base_seconds * 0.3` and
returns `max(0, base_seconds + random.uniform(-jitter, jitter))`.  The random
draw is made explicit as a parameter `u`; `validDraw` says `u` is a value
`random.uniform(-jitter, jitter)` can return (for a negative first argument
Python's `uniform(a, b)` still returns a value between the two bounds). -/

/-- The `jitter = base_seconds * 0.3` computed by `random_delay`. -/
def jitterOf (base : ℚ) : ℚ :=
  base * (3 / 10)

/-- Model of `random_delay(base_seconds)` with the draw `u` of
`random.uniform(-jitter, jitter)` made explicit:
`max(0, base_seconds + u)`. -/
def random_delay (base u : ℚ) : ℚ :=
  max 0 (base + u)

/-- Asserts `u` is a possible value of `random.uniform(-jitter, jitter)`. -/
def validDraw (base u : ℚ) : Prop :=
  min (-(jitterOf base)) (jitterOf base) ≤ u ∧
    u ≤ max (-(jitterOf base)) (jitterOf base)

/-! ## Result-page classification (src/scouts/vhs_berlin.py, parse_results)

A `Page` records exactly what the selectors of `parse_results` read from the
markup: the text of `#ctl00_Content_ErrorMessage1_lblError`, of
`#ctl00_Content_lblTitle`, of `#ctl00_Content_lblMessage1All` (each `none`
when the selector matches nothing), and one `Row` per
`#ctl00_Content_ILDataGrid1 tr.DataGridItem` with the text of each of the
three cell selectors (`none` when the cell is missing). -/

structure Row where
  district : Option String
  course_title : Option String
  free_places : Option String
deriving DecidableEq

structure Page where
  errorEl : Option String
  titleEl : Option String
  countEl : Option String
  rows : List Row
deriving DecidableEq

/-- One course record extracted from a data row. -/
structure Record where
  district : String
  course_title : String
  free_places : String
deriving DecidableEq

/-- The dictionary returned by `parse_results`.  `course_count` and `courses`
are `none` for the two negative dictionaries, which carry only the `success`
and `has_courses` keys. -/
structure ParseResult where
  success : Bool
  has_courses : Bool
  course_count : Option Nat
  courses : Option (List Record)
deriving DecidableEq

/-- The dictionary `{"success": False, "has_courses": False}` returned by
both negative branches of `parse_results`. -/
def negativeResult : ParseResult :=
  { success := false, has_courses := false, course_count := none, courses := none }

/-- The no-results message the code looks for in the error element. -/
def noCoursesMsg : String :=
  "Zu Ihrer Suche wurden keine Kurse gefunden."

/-- Model of `error_el and "Zu Ihrer Suche wurden keine Kurse gefunden." in error_el.text`. -/
def hasNoCoursesMsg (p : Page) : Bool :=
  match p.errorEl with
  | some t => strContains noCoursesMsg t
  | none => false

/-- Model of `title_el and "Kursliste" in title_el.text` (negated in the guard). -/
def titleHasMarker (p : Page) : Bool :=
  match p.titleEl with
  | some t => strContains "Kursliste" t
  | none => false

/-- Model of `count_text = count_el.text.strip() if count_el else ""`. -/
def countText (p : Page) : String :=
  match p.countEl with
  | some t => strip t
  | none => ""

/-- Model of `re.search(r"\d+", text)`: the first maximal run of digit characters. -/
def firstDigitRun : List Char → Option (List Char)
  | [] => none
  | c :: t => if c.isDigit then some (c :: t.takeWhile Char.isDigit) else firstDigitRun t

/-- The first integer substring of the summary element's stripped text, when
one exists. -/
def firstIntOfSummary (p : Page) : Option Nat :=
  (firstDigitRun (countText p).data).map digitsToNat

/-- Model of `course_count = int(m.group()) if m else 0`. -/
def extractedCount (p : Page) : Nat :=
  match firstDigitRun (countText p).data with
  | some ds => digitsToNat ds
  | none => 0

/-- Model of `safe_text(sel)`: the stripped text of the cell when present, `"N/A"`
otherwise (the bare `except` also yields `"N/A"`, unreachable here). -/
def safe_text (cell : Option String) : String :=
  match cell with
  | some t => strip t
  | none => "N/A"

/-- The record built from one data row. -/
def extractRecord (r : Row) : Record :=
  { district := safe_text r.district
    course_title := safe_text r.course_title
    free_places := safe_text r.free_places }

/-- Model of `VHSBerlinScout.parse_results`: the no-results message wins first, then a
title without the `"Kursliste"` marker is rejected, otherwise the count is
read from the summary element and every data row becomes a record. -/
def parse_results (p : Page) : ParseResult :=
  if hasNoCoursesMsg p then negativeResult
  else if titleHasMarker p then
    { success := true
      has_courses := true
      course_count := some (extractedCount p)
      courses := some (p.rows.map extractRecord) }
  else negativeResult

/-! ## The search protocol (src/scouts/vhs_berlin.py, perform_search /
_follow_redirects)

An HTTP response is a status code, an optional `Location` header and a body.
The session is an oracle `get : Bool → String → Resp` giving the response the
session returns for a GET to a URL; the `Bool` is the `allow_redirects` flag
(for `true` the oracle returns the final response after the redirects the
library itself follows). -/

structure Resp where
  status : Nat
  location : Option String
  body : String
deriving DecidableEq

/-- The origin prepended to `Location` values by `_follow_redirects`. -/
def vhsBase : String :=
  "https://www.vhsit.berlin.de"

/-- The POST status guard of `perform_search`:
`if post_resp.status_code not in [302, 200]: raise Exception(f"Unexpected
POST response status: {post_resp.status_code}")`. -/
def checkPostStatus (code : Nat) : Except String Unit :=
  if code = 302 ∨ code = 200 then Except.ok ()
  else Except.error ("Unexpected POST response status: " ++ Nat.repr code)

/-- Model of `VHSBerlinScout._follow_redirects`, with the session's GET behaviour as
the oracle `get`.  `raise_for_status` on the last response raises exactly for
status codes in `[400, 600)`. -/
def follow_redirects (get : Bool → String → Resp) (initial : Resp) :
    Except String String :=
  if initial.status = 200 then Except.ok initial.body
  else
    match initial.location with
    | none => Except.ok initial.body
    | some loc =>
      let r1 := get false (vhsBase ++ loc)
      if r1.status = 200 then Except.ok r1.body
      else
        match r1.location with
        | none => Except.ok r1.body
        | some loc2 =>
          let r2 := get true (vhsBase ++ loc2)
          if 400 ≤ r2.status ∧ r2.status < 600 then
            Except.error ("HTTP error " ++ Nat.repr r2.status)
          else Except.ok r2.body

/-! ## The per-run retry loop (src/core/base_scout.py, BaseScout.run)

One run executes the inner `while attempt < max_attempts and not results`
loop and then dispatches to `handle_success` or `handle_failure`.  The
combined behaviour of `perform_search` followed by `parse_results` on attempt
`i` is the oracle `behav i`: either an exception with message `e` or a parsed
dictionary.  The loop is embedded with explicit fuel `maxAttempts - attempt`,
accumulating the notification and log messages issued inside the loop, the
number of `self.sleep(short_wait)` calls, and the final `results` value. -/

inductive AttemptResult where
  | raised (e : String)
  | parsed (p : ParseResult)

/-- The message `f"⚠️ Error during search (attempt #{attempt}):\n`{e}`"`
passed to `self.notify` in the `except` branch. -/
def errNotifMsg (attempt : Nat) (e : String) : String :=
  "⚠️ Error during search (attempt #" ++ Nat.repr attempt ++ "):\n`" ++ e ++ "`"

/-- The message `f"[Attempt #{attempt}] Error during search: {e}"` passed to
`log` in the `except` branch. -/
def errLogMsg (attempt : Nat) (e : String) : String :=
  "[Attempt #" ++ Nat.repr attempt ++ "] Error during search: " ++ e

structure InnerResult where
  attempts : Nat
  notifs : List String
  logs : List String
  sleeps : Nat
  result : Option ParseResult
deriving DecidableEq

/-- The inner retry loop of `BaseScout.run`.  Each iteration increments the
attempt counter, consults `behav` for that attempt, and either stores a
successful parse and breaks (skipping the sleep), or — on an exception after
logging and notifying, on a non-successful parse silently — sleeps the short
delay and continues. -/
def innerLoop (behav : Nat → AttemptResult) :
    Nat → Nat → List String → List String → Nat → InnerResult
  | 0, attempt, notifs, logs, sleeps =>
    ⟨attempt, notifs, logs, sleeps, none⟩
  | fuel + 1, attempt, notifs, logs, sleeps =>
    match behav (attempt + 1) with
    | AttemptResult.raised e =>
      innerLoop behav fuel (attempt + 1)
        (notifs ++ [errNotifMsg (attempt + 1) e])
        (logs ++ [errLogMsg (attempt + 1) e]) (sleeps + 1)
    | AttemptResult.parsed p =>
      if p.success then ⟨attempt + 1, notifs, logs, sleeps, some p⟩
      else innerLoop behav fuel (attempt + 1) notifs logs (sleeps + 1)

structure RunReport where
  attempts : Nat
  failNotifs : List String
  failLogs : List String
  sleeps : Nat
  result : Option ParseResult
  successCalls : Nat
  failureCalls : Nat
deriving DecidableEq

/-- The dispatch after the inner loop: `handle_success` when `results` was
set, `handle_failure` otherwise — exactly one of the two. -/
def dispatchHandlers (r : InnerResult) : RunReport :=
  match r.result with
  | some _ => ⟨r.attempts, r.notifs, r.logs, r.sleeps, r.result, 1, 0⟩
  | none => ⟨r.attempts, r.notifs, r.logs, r.sleeps, r.result, 0, 1⟩

/-- One full run of `BaseScout.run`'s outer loop body, after the run-start
notification: the inner retry loop, then exactly one of `handle_success` /
`handle_failure` according to whether `results` was set. -/
def runOnce (behav : Nat → AttemptResult) (maxAttempts : Nat) : RunReport :=
  dispatchHandlers (innerLoop behav maxAttempts 0 [] [] 0)

/-- The notification the loop issues for attempt `i`, if any: the error
notification when the attempt raises, nothing when it returns a parsed
dictionary (successful or not). -/
def attemptNotif (behav : Nat → AttemptResult) (i : Nat) : Option String :=
  match behav i with
  | AttemptResult.raised e => some (errNotifMsg i e)
  | AttemptResult.parsed _ => none

/-- The log line the loop issues for attempt `i`, if any. -/
def attemptLog (behav : Nat → AttemptResult) (i : Nat) : Option String :=
  match behav i with
  | AttemptResult.raised e => some (errLogMsg i e)
  | AttemptResult.parsed _ => none

/-- The notifications issued for attempts `start+1 … start+n`, in order. -/
def notifsFor (behav : Nat → AttemptResult) (start : Nat) : Nat → List String
  | 0 => []
  | n + 1 => (attemptNotif behav (start + 1)).toList ++ notifsFor behav (start + 1) n

/-- The log lines issued for attempts `start+1 … start+n`, in order. -/
def logsFor (behav : Nat → AttemptResult) (start : Nat) : Nat → List String
  | 0 => []
  | n + 1 => (attemptLog behav (start + 1)).toList ++ logsFor behav (start + 1) n

/-! ## Concrete instances used by individual claims -/

/-- A page carrying the no-results message. -/
def noResultsPage : Page :=
  { errorEl := some "Zu Ihrer Suche wurden keine Kurse gefunden."
    titleEl := none
    countEl := none
    rows := [] }

/-- A page without the no-results message whose title lacks the
`"Kursliste"` marker: an unrecognized page. -/
def unrecognizedPage : Page :=
  { errorEl := none
    titleEl := some "Anmeldung"
    countEl := none
    rows := [] }

/-- A behaviour whose every attempt yields the negative parsed dictionary. -/
def behavNegative : Nat → AttemptResult :=
  fun _ => AttemptResult.parsed negativeResult

/-- A successful parsed dictionary used by the concrete run scenario. -/
def foundResult : ParseResult :=
  { success := true
    has_courses := true
    course_count := some 4
    courses := some [⟨"Mitte", "Deutsch B1", "3"⟩] }

/-- A behaviour raising a transport error on attempts 1 and 2 and yielding a
successful parse on attempt 3. -/
def behavTwoErrorsThenFound : Nat → AttemptResult :=
  fun i => if i ≤ 2 then AttemptResult.raised "Connection refused" else AttemptResult.parsed foundResult

/-- A session oracle for the redirect scenario: GET `/A` answers 302 with
`Location: /B`, GET `/B` answers 200. -/
def getTwoHops : Bool → String → Resp := fun _ url =>
  if url = vhsBase ++ "/A" then ⟨302, some "/B", "interstitial page"⟩
  else if url = vhsBase ++ "/B" then ⟨200, none, "course list page"⟩
  else ⟨404, none, "missing"⟩

/-- A POST response answering 302 with `Location: /A`. -/
def postRespTwoHops : Resp :=
  ⟨302, some "/A", "post response body"⟩

/-- A data row with all three cells present. -/
def sampleRowFull : Row :=
  ⟨some " Mitte ", some "Deutsch B1", some "3"⟩

/-- A data row whose district cell is missing. -/
def sampleRowMissing : Row :=
  ⟨none, some "Yoga", some "2"⟩

/-- A result page: no no-results message (the error element is present but
carries other text), a `Kursliste` title, a summary claiming 42 courses, and
3 data rows. -/
def samplePage : Page :=
  { errorEl := some "Hinweis"
    titleEl := some "Kursliste - Ergebnisse"
    countEl := some " 42 Kurse gefunden "
    rows := [sampleRowFull, sampleRowMissing, sampleRowFull] }

/-- A result page with a `Kursliste` title, a digit-free summary and no data
rows. -/
def emptyResultsPage : Page :=
  { errorEl := none
    titleEl := some "Kursliste"
    countEl := some "Keine Angabe"
    rows := [] }

/-! ## Helper lemmas -/

/-- The test `containsSub` decides contiguous-sublist membership. -/
theorem containsSub_iff (n : List Char) : ∀ h : List Char,
    containsSub n h = true ↔ n <:+: h := by
  intro h
  induction h with
  | nil =>
    simp [containsSub, List.isEmpty_iff, List.infix_nil]
  | cons c t ih =>
    rw [containsSub, Bool.or_eq_true, ih, List.infix_cons_iff,
      List.isPrefixOf_iff_prefix]

/-- A string is contained in any string extending it on the left. -/
theorem strContains_append (s t : String) : strContains t (s ++ t) = true := by
  unfold strContains
  rw [String.data_append]
  exact (containsSub_iff _ _).mpr ( List.IsSuffix.isInfix (List.suffix_append s.data t.data))

/-- In the positive branch (no no-results message, marked title),
`parse_results` returns the successful dictionary with the extracted count
and one record per data row. -/
theorem parse_results_positive (p : Page) (herr : hasNoCoursesMsg p = false)
    (htitle : titleHasMarker p = true) :
    parse_results p =
      { success := true
        has_courses := true
        course_count := some (extractedCount p)
        courses := some (p.rows.map extractRecord) } := by
  unfold parse_results
  simp [herr, htitle]

/-- In either negative branch, `parse_results` returns `negativeResult`. -/
theorem parse_results_negative (p : Page)
    (h : hasNoCoursesMsg p = true ∨ (hasNoCoursesMsg p = false ∧ titleHasMarker p = false)) :
    parse_results p = negativeResult := by
  unfold parse_results
  rcases h with h | ⟨h1, h2⟩
  · simp [h]
  · simp [h1, h2]

/-- The fields of the handler dispatch agree with the inner loop's. -/
theorem dispatchHandlers_fields (r : InnerResult) :
    (dispatchHandlers r).attempts = r.attempts ∧
      (dispatchHandlers r).failNotifs = r.notifs ∧
      (dispatchHandlers r).failLogs = r.logs ∧
      (dispatchHandlers r).sleeps = r.sleeps ∧
      (dispatchHandlers r).result = r.result := by
  unfold dispatchHandlers
  cases hr : r.result <;> simp [hr]

/-- The inner loop never decreases the attempt counter, and the
notifications and log lines it accumulates are exactly those of the raised
attempts among the attempts it performed, in order. -/
theorem innerLoop_spec (behav : Nat → AttemptResult) :
    ∀ fuel attempt notifs logs sleeps,
      attempt ≤ (innerLoop behav fuel attempt notifs logs sleeps).attempts ∧
      (innerLoop behav fuel attempt notifs logs sleeps).notifs =
        notifs ++ notifsFor behav attempt
          ((innerLoop behav fuel attempt notifs logs sleeps).attempts - attempt) ∧
      (innerLoop behav fuel attempt notifs logs sleeps).logs =
        logs ++ logsFor behav attempt
          ((innerLoop behav fuel attempt notifs logs sleeps).attempts - attempt) := by
  intro fuel
  induction fuel with
  | zero =>
    intro attempt notifs logs sleeps
    simp [innerLoop, notifsFor, logsFor]
  | succ fuel ih =>
    intro attempt notifs logs sleeps
    cases hb : behav (attempt + 1) with
    | raised e =>
      have heq : innerLoop behav (fuel + 1) attempt notifs logs sleeps =
          innerLoop behav fuel (attempt + 1)
            (notifs ++ [errNotifMsg (attempt + 1) e])
            (logs ++ [errLogMsg (attempt + 1) e]) (sleeps + 1) := by
        rw [innerLoop, hb]
      obtain ⟨hle, hn, hl⟩ := ih (attempt + 1)
        (notifs ++ [errNotifMsg (attempt + 1) e])
        (logs ++ [errLogMsg (attempt + 1) e]) (sleeps + 1)
      rw [heq]
      refine ⟨by omega, ?_, ?_⟩
      · rw [hn]
        rw [show (innerLoop behav fuel (attempt + 1)
            (notifs ++ [errNotifMsg (attempt + 1) e])
            (logs ++ [errLogMsg (attempt + 1) e]) (sleeps + 1)).attempts - attempt =
          ((innerLoop behav fuel (attempt + 1)
            (notifs ++ [errNotifMsg (attempt + 1) e])
            (logs ++ [errLogMsg (attempt + 1) e]) (sleeps + 1)).attempts - (attempt + 1)) + 1
          from by omega]
        rw [notifsFor]
        simp [attemptNotif, hb]
      · rw [hl]
        rw [show (innerLoop behav fuel (attempt + 1)
            (notifs ++ [errNotifMsg (attempt + 1) e])
            (logs ++ [errLogMsg (attempt + 1) e]) (sleeps + 1)).attempts - attempt =
          ((innerLoop behav fuel (attempt + 1)
            (notifs ++ [errNotifMsg (attempt + 1) e])
            (logs ++ [errLogMsg (attempt + 1) e]) (sleeps + 1)).attempts - (attempt + 1)) + 1
          from by omega]
        rw [logsFor]
        simp [attemptLog, hb]
    | parsed p =>
      by_cases hs : p.success = true
      · have heq : innerLoop behav (fuel + 1) attempt notifs logs sleeps =
            ⟨attempt + 1, notifs, logs, sleeps, some p⟩ := by
          rw [innerLoop, hb]
          simp [hs]
        rw [heq]
        refine ⟨Nat.le_succ attempt, ?_, ?_⟩
        · show notifs = notifs ++ notifsFor behav attempt (attempt + 1 - attempt)
          rw [show attempt + 1 - attempt = 1 from by omega, notifsFor, notifsFor]
          simp [attemptNotif, hb]
        · show logs = logs ++ logsFor behav attempt (attempt + 1 - attempt)
          rw [show attempt + 1 - attempt = 1 from by omega, logsFor, logsFor]
          simp [attemptLog, hb]
      · have heq : innerLoop behav (fuel + 1) attempt notifs logs sleeps =
            innerLoop behav fuel (attempt + 1) notifs logs (sleeps + 1) := by
          rw [innerLoop, hb]
          simp [hs]
        obtain ⟨hle, hn, hl⟩ := ih (attempt + 1) notifs logs (sleeps + 1)
        rw [heq]
        refine ⟨by omega, ?_, ?_⟩
        · rw [hn]
          rw [show (innerLoop behav fuel (attempt + 1) notifs logs (sleeps + 1)).attempts - attempt =
            ((innerLoop behav fuel (attempt + 1) notifs logs (sleeps + 1)).attempts - (attempt + 1)) + 1
            from by omega]
          rw [notifsFor]
          simp [attemptNotif, hb]
        · rw [hl]
          rw [show (innerLoop behav fuel (attempt + 1) notifs logs (sleeps + 1)).attempts - attempt =
            ((innerLoop behav fuel (attempt + 1) notifs logs (sleeps + 1)).attempts - (attempt + 1)) + 1
            from by omega]
          rw [logsFor]
          simp [attemptLog, hb]

/-- Every character of a decimal representation is a digit character. -/
theorem natRepr_mem (n : Nat) : ∀ c ∈ natRepr n, ∃ d, d < 10 ∧ c = digitChar d := by
  induction n using Nat.strong_induction_on with
  | _ n ih =>
    intro c hc
    rw [natRepr] at hc
    split at hc
    · next h =>
      simp only [List.mem_singleton] at hc
      exact ⟨n, h, hc⟩
    · next h =>
      rcases List.mem_append.mp hc with h1 | h2
      · exact ih (n / 10) (Nat.div_lt_self (by omega) (by omega)) c h1
      · simp only [List.mem_singleton] at h2
        exact ⟨n % 10, Nat.mod_lt _ (by omega), h2⟩

/-- A decimal representation is never empty. -/
theorem natRepr_ne_nil (n : Nat) : natRepr n ≠ [] := by
  rw [natRepr]
  split <;> simp

theorem digitChar_isDigit {d : Nat} (h : d < 10) : (digitChar d).isDigit = true := by
  interval_cases d <;> decide

theorem digitChar_not_ws {d : Nat} (h : d < 10) : isWS (digitChar d) = false := by
  interval_cases d <;> decide

theorem digitChar_ne_dash {d : Nat} (h : d < 10) : digitChar d ≠ '-' := by
  interval_cases d <;> decide

theorem digitChar_toNat {d : Nat} (h : d < 10) : (digitChar d).toNat = 48 + d := by
  interval_cases d <;> decide

theorem digitsToNat_append (xs : List Char) (c : Char) :
    digitsToNat (xs ++ [c]) = digitsToNat xs * 10 + (c.toNat - 48) := by
  simp [digitsToNat, List.foldl_append]

/-- Parsing inverts printing for natural numbers. -/
theorem digitsToNat_natRepr (n : Nat) : digitsToNat (natRepr n) = n := by
  induction n using Nat.strong_induction_on with
  | _ n ih =>
    rw [natRepr]
    split
    · next h =>
      simp only [digitsToNat, List.foldl_cons, List.foldl_nil,
        digitChar_toNat h]
      omega
    · next h =>
      rw [digitsToNat_append, ih (n / 10) (Nat.div_lt_self (by omega) (by omega)),
        digitChar_toNat (Nat.mod_lt _ (by omega) : n % 10 < 10)]
      omega

theorem dropWhile_isWS_of_no_ws (cs : List Char) (h : ∀ c ∈ cs, isWS c = false) :
    cs.dropWhile isWS = cs := by
  cases cs with
  | nil => rfl
  | cons c t =>
    rw [List.dropWhile_cons, h c (by simp)]
    simp

/-- Stripping leaves a whitespace-free string unchanged. -/
theorem trimChars_of_no_ws (cs : List Char) (h : ∀ c ∈ cs, isWS c = false) :
    trimChars cs = cs := by
  unfold trimChars
  rw [dropWhile_isWS_of_no_ws cs h,
    dropWhile_isWS_of_no_ws cs.reverse (fun c hc => h c (List.mem_reverse.mp hc)),
    List.reverse_reverse]

theorem parseNatDigits_natRepr (n : Nat) : parseNatDigits (natRepr n) = some n := by
  have hne : (natRepr n).isEmpty = false := by
    simp [List.isEmpty_iff, natRepr_ne_nil n]
  have hall : (natRepr n).all Char.isDigit = true := by
    rw [List.all_eq_true]
    intro c hc
    obtain ⟨d, hd, rfl⟩ := natRepr_mem n c hc
    exact digitChar_isDigit hd
  simp [parseNatDigits, hne, hall, digitsToNat_natRepr]

theorem parseInt_natRepr (n : Nat) : parseInt (natRepr n) = some (n : Int) := by
  have hh : ¬((natRepr n).head? = some '-') := by
    cases hcs : natRepr n with
    | nil => simp
    | cons c t =>
      have hmem : c ∈ natRepr n := by
        rw [hcs]
        simp
      obtain ⟨d, hd, rfl⟩ := natRepr_mem n c hmem
      simp [digitChar_ne_dash hd]
  unfold parseInt
  rw [if_neg hh, parseNatDigits_natRepr]
  rfl

/-! ## Claim theorems -/

/-- C1 counterexample: the concrete unrecognized page and the concrete
no-results page yield exactly the same dictionary from `parse_results`, so
the two outcomes are not distinguishable by value, contrary to the claim. -/
theorem unrecognized_equals_noresults_counterexample :
    hasNoCoursesMsg noResultsPage = true ∧
      hasNoCoursesMsg unrecognizedPage = false ∧
      titleHasMarker unrecognizedPage = false ∧
      parse_results unrecognizedPage = parse_results noResultsPage :=
  ⟨by decide, by decide, by decide, by decide⟩

/-- C1 amended: for every no-results page and every unrecognized page,
`parse_results` returns the one shared dictionary
`{"success": False, "has_courses": False}` for both — the two negative
outcomes are equal, not distinguishable by returned value. -/
theorem negative_outcomes_identical (p q : Page)
    (hp : hasNoCoursesMsg p = true)
    (hq1 : hasNoCoursesMsg q = false) (hq2 : titleHasMarker q = false) :
    parse_results p = negativeResult ∧
      parse_results q = negativeResult ∧
      parse_results p = parse_results q := by
  have h1 : parse_results p = negativeResult := parse_results_negative p (Or.inl hp)
  have h2 : parse_results q = negativeResult := parse_results_negative q (Or.inr ⟨hq1, hq2⟩)
  exact ⟨h1, h2, h1.trans h2.symm⟩

theorem negative_outcomes_identical_witness :
    hasNoCoursesMsg noResultsPage = true ∧
      hasNoCoursesMsg unrecognizedPage = false ∧
      titleHasMarker unrecognizedPage = false ∧
      (parse_results noResultsPage = negativeResult ∧
        parse_results unrecognizedPage = negativeResult ∧
        parse_results noResultsPage = parse_results unrecognizedPage) :=
  ⟨by decide, by decide, by decide,
    negative_outcomes_identical noResultsPage unrecognizedPage
      (by decide) (by decide) (by decide)⟩

/-- C2 counterexample: with `max_attempts = 2` and every attempt yielding a
negative parsed outcome, the run performs 2 non-successful attempts, sleeps
after each, yet issues no notification and no log line — contrary to the
claim that every non-successful attempt is logged and notified. -/
theorem negative_outcome_not_notified :
    (runOnce behavNegative 2).attempts = 2 ∧
      (runOnce behavNegative 2).sleeps = 2 ∧
      (runOnce behavNegative 2).result = none ∧
      (runOnce behavNegative 2).failNotifs = [] ∧
      (runOnce behavNegative 2).failLogs = [] := by
  decide

/-- C2 amended: within a run, exactly the attempts that raise an exception
are logged and notified (with the attempt number and the error as the
distinguishing marker) before the sleep; attempts that merely produce a
non-successful parsed outcome (NoResults or Unrecognized) sleep and count
without any notification or log line. -/
theorem run_notifies_exactly_raised_attempts (behav : Nat → AttemptResult)
    (maxAttempts : Nat) :
    (runOnce behav maxAttempts).failNotifs =
        notifsFor behav 0 ((runOnce behav maxAttempts).attempts) ∧
      (runOnce behav maxAttempts).failLogs =
        logsFor behav 0 ((runOnce behav maxAttempts).attempts) := by
  obtain ⟨hle, hn, hl⟩ := innerLoop_spec behav maxAttempts 0 [] [] 0
  obtain ⟨ha, hfn, hfl, _, _⟩ :=
    dispatchHandlers_fields (innerLoop behav maxAttempts 0 [] [] 0)
  unfold runOnce
  rw [ha, hfn, hfl, hn, hl]
  simp

/-- C3: with `max_attempts = 5`, a transport error on attempts 1 and 2 and a
successful parse on attempt 3, the run performs exactly 3 attempts, issues
exactly 2 failure notifications, invokes the success handler exactly once
(and the failure handler not at all), and makes no 4th attempt. -/
theorem run_two_errors_then_found :
    (runOnce behavTwoErrorsThenFound 5).attempts = 3 ∧
      (runOnce behavTwoErrorsThenFound 5).failNotifs.length = 2 ∧
      (runOnce behavTwoErrorsThenFound 5).successCalls = 1 ∧
      (runOnce behavTwoErrorsThenFound 5).failureCalls = 0 ∧
      (runOnce behavTwoErrorsThenFound 5).result = some foundResult := by
  decide

/-- C4: when the POST answers 302 with Location A, the GET to A (redirects
disabled) answers 302 with Location B, and the GET to B answers 200, the
redirect resolution returns the body of the GET-to-B response, and not the
body of the GET-to-A response (whenever the two bodies differ). -/
theorem follow_redirects_two_hops (get : Bool → String → Resp) (initial : Resp)
    (locA locB : String)
    (h0s : initial.status = 302) (h0l : initial.location = some locA)
    (h1s : (get false (vhsBase ++ locA)).status = 302)
    (h1l : (get false (vhsBase ++ locA)).location = some locB)
    (h2s : (get true (vhsBase ++ locB)).status = 200) :
    follow_redirects get initial = Except.ok (get true (vhsBase ++ locB)).body ∧
      ((get false (vhsBase ++ locA)).body ≠ (get true (vhsBase ++ locB)).body →
        follow_redirects get initial ≠
          Except.ok (get false (vhsBase ++ locA)).body) := by
  have hres : follow_redirects get initial =
      Except.ok (get true (vhsBase ++ locB)).body := by
    simp [follow_redirects, h0s, h0l, h1s, h1l, h2s]
  refine ⟨hres, fun hne hcontra => ?_⟩
  rw [hres] at hcontra
  exact hne (Except.ok.inj hcontra).symm

theorem follow_redirects_two_hops_witness :
    postRespTwoHops.status = 302 ∧ postRespTwoHops.location = some "/A" ∧
      (getTwoHops false (vhsBase ++ "/A")).status = 302 ∧
      (getTwoHops false (vhsBase ++ "/A")).location = some "/B" ∧
      (getTwoHops true (vhsBase ++ "/B")).status = 200 ∧
      follow_redirects getTwoHops postRespTwoHops =
        Except.ok (getTwoHops true (vhsBase ++ "/B")).body :=
  ⟨by decide, by decide, by decide, by decide, by decide,
    (follow_redirects_two_hops getTwoHops postRespTwoHops "/A" "/B"
      (by decide) (by decide) (by decide) (by decide) (by decide)).1⟩

/-- C5: the POST status guard accepts exactly the statuses 200 and 302; any
other status fails with a message that contains the observed status code. -/
theorem checkPostStatus_spec (code : Nat) :
    (checkPostStatus code = Except.ok () ↔ (code = 200 ∨ code = 302)) ∧
      ∀ msg, checkPostStatus code = Except.error msg →
        strContains (Nat.repr code) msg = true := by
  constructor
  · constructor
    · intro h
      by_contra hn
      push_neg at hn
      unfold checkPostStatus at h
      rw [if_neg (by tauto)] at h
      exact absurd h (by simp)
    · intro h
      unfold checkPostStatus
      rw [if_pos (by tauto)]
  · intro msg h
    unfold checkPostStatus at h
    by_cases hc : code = 302 ∨ code = 200
    · rw [if_pos hc] at h
      exact absurd h (by simp)
    · rw [if_neg hc] at h
      simp only [Except.error.injEq] at h
      rw [← h]
      exact strContains_append _ _

theorem checkPostStatus_spec_witness :
    strContains (Nat.repr 500) "Unexpected POST response status: 500" = true :=
  (checkPostStatus_spec 500).2 "Unexpected POST response status: 500" (by rfl)

/-- C6: on a page without the no-results message whose title carries the
`Kursliste` marker, `parse_results` reports the summary's first integer
substring as the count (0 when the summary has no digits) and one record per
data row, the two values independent of each other. -/
theorem parse_results_found_spec (p : Page) (C : Nat)
    (herr : hasNoCoursesMsg p = false) (htitle : titleHasMarker p = true) :
    ((firstIntOfSummary p = some C →
        parse_results p =
          { success := true, has_courses := true, course_count := some C,
            courses := some (p.rows.map extractRecord) }) ∧
      (firstIntOfSummary p = none → (parse_results p).course_count = some 0)) ∧
      (parse_results p).courses = some (p.rows.map extractRecord) ∧
      ((parse_results p).courses.getD []).length = p.rows.length := by
  have hpr := parse_results_positive p herr htitle
  refine ⟨⟨?_, ?_⟩, ?_, ?_⟩
  · intro hC
    rw [hpr]
    have hcount : extractedCount p = C := by
      unfold extractedCount
      unfold firstIntOfSummary at hC
      cases hfd : firstDigitRun (countText p).data with
      | none =>
        rw [hfd] at hC
        exact absurd hC (by simp)
      | some ds =>
        rw [hfd] at hC
        simpa using hC
    rw [hcount]
  · intro hC
    rw [hpr]
    have hcount : extractedCount p = 0 := by
      unfold extractedCount
      unfold firstIntOfSummary at hC
      cases hfd : firstDigitRun (countText p).data with
      | none => rfl
      | some ds =>
        rw [hfd] at hC
        exact absurd hC (by simp)
    rw [hcount]
  · rw [hpr]
  · rw [hpr]
    simp

theorem parse_results_found_spec_witness :
    hasNoCoursesMsg samplePage = false ∧
      titleHasMarker samplePage = true ∧
      firstIntOfSummary samplePage = some 42 ∧
      samplePage.rows.length = 3 ∧
      (parse_results samplePage =
        { success := true, has_courses := true, course_count := some 42,
          courses := some (samplePage.rows.map extractRecord) } ∧
        ((parse_results samplePage).courses.getD []).length = 3) :=
  ⟨by decide, by decide, by decide, by decide,
    (parse_results_found_spec samplePage 42 (by decide) (by decide)).1.1 (by decide),
    ((parse_results_found_spec samplePage 42 (by decide) (by decide)).2.2).trans (by decide)⟩

/-- C7: a data row missing any of its three cells yields a record whose
corresponding field is `"N/A"`; the row still appears in the parsed record
list and the page parses to a successful dictionary. -/
theorem row_missing_cell_defaults (p : Page) (r : Row)
    (herr : hasNoCoursesMsg p = false) (htitle : titleHasMarker p = true)
    (hr : r ∈ p.rows) :
    extractRecord r ∈ ((parse_results p).courses.getD []) ∧
      (r.district = none → (extractRecord r).district = "N/A") ∧
      (r.course_title = none → (extractRecord r).course_title = "N/A") ∧
      (r.free_places = none → (extractRecord r).free_places = "N/A") ∧
      (parse_results p).success = true := by
  have hpr := parse_results_positive p herr htitle
  refine ⟨?_, ?_, ?_, ?_, ?_⟩
  · rw [hpr]
    simpa using List.mem_map_of_mem extractRecord hr
  · intro h
    simp [extractRecord, safe_text, h]
  · intro h
    simp [extractRecord, safe_text, h]
  · intro h
    simp [extractRecord, safe_text, h]
  · rw [hpr]

theorem row_missing_cell_defaults_witness :
    hasNoCoursesMsg samplePage = false ∧
      titleHasMarker samplePage = true ∧
      sampleRowMissing ∈ samplePage.rows ∧
      sampleRowMissing.district = none ∧
      (extractRecord sampleRowMissing ∈ ((parse_results samplePage).courses.getD []) ∧
        (extractRecord sampleRowMissing).district = "N/A" ∧
        (parse_results samplePage).success = true) :=
  ⟨by decide, by decide, by decide, rfl,
    (row_missing_cell_defaults samplePage sampleRowMissing
      (by decide) (by decide) (by decide)).1,
    (row_missing_cell_defaults samplePage sampleRowMissing
      (by decide) (by decide) (by decide)).2.1 rfl,
    (row_missing_cell_defaults samplePage sampleRowMissing
      (by decide) (by decide) (by decide)).2.2.2.2⟩

/-- C8 counterexample: at base delay −1 the draw 0 is a possible value of
`random.uniform(-jitter, jitter)`, the returned delay is 0, and 0 does not
lie in the claimed interval `[max(0, 0.7·(−1)), 1.3·(−1)]`, which is empty —
the claim fails for negative bases. -/
theorem random_delay_negative_base_counterexample :
    validDraw (-1) 0 ∧ random_delay (-1) 0 = 0 ∧
      ¬(max 0 ((7 : ℚ) / 10 * (-1)) ≤ random_delay (-1) 0 ∧
        random_delay (-1) 0 ≤ (13 : ℚ) / 10 * (-1)) := by
  refine ⟨⟨?_, ?_⟩, ?_, ?_⟩ <;>
    norm_num [validDraw, jitterOf, random_delay]

/-- C8 amended: for every nonnegative base delay B and every possible draw,
the jittered delay lies in the closed interval `[max(0, 0.7·B), 1.3·B]`
(for B ≥ 0 the lower end equals 0.7·B). -/
theorem random_delay_in_range (base u : ℚ) (hbase : 0 ≤ base)
    (hu : validDraw base u) :
    max 0 ((7 : ℚ) / 10 * base) ≤ random_delay base u ∧
      random_delay base u ≤ (13 : ℚ) / 10 * base := by
  obtain ⟨h1, h2⟩ := hu
  have hj : (0 : ℚ) ≤ jitterOf base := by
    unfold jitterOf
    nlinarith
  rw [min_eq_left (by linarith)] at h1
  rw [max_eq_right (by linarith)] at h2
  have h1' : -(base * (3 / 10)) ≤ u := h1
  have h2' : u ≤ base * (3 / 10) := h2
  have hlo : (7 : ℚ) / 10 * base ≤ base + u := by linarith
  have hpos : (0 : ℚ) ≤ base + u := by linarith
  have hd : random_delay base u = base + u := max_eq_right hpos
  constructor
  · rw [hd, max_eq_right (by linarith : (0 : ℚ) ≤ (7 : ℚ) / 10 * base)]
    exact hlo
  · rw [hd]
    linarith

theorem random_delay_in_range_witness :
    (0 : ℚ) ≤ 10 ∧ validDraw 10 2 ∧
      (max 0 ((7 : ℚ) / 10 * 10) ≤ random_delay 10 2 ∧
        random_delay 10 2 ≤ (13 : ℚ) / 10 * 10) :=
  ⟨by norm_num,
    ⟨by norm_num [validDraw, jitterOf], by norm_num [validDraw, jitterOf]⟩,
    random_delay_in_range 10 2 (by norm_num)
      ⟨by norm_num [validDraw, jitterOf], by norm_num [validDraw, jitterOf]⟩⟩

/-- C9: the run-number store round-trips — loading an empty store yields 0,
and loading immediately after saving an unsigned value `v` yields `v`. -/
theorem run_number_roundtrip :
    load_run_number none = 0 ∧
      ∀ v : Nat, load_run_number (save_run_number (v : Int)) = (v : Int) := by
  refine ⟨rfl, fun v => ?_⟩
  have htn : ((v : Int)).toNat = v := by omega
  have hrepr : intRepr (v : Int) = natRepr v := by
    unfold intRepr
    rw [if_neg (by omega : ¬((v : Int) < 0)), htn]
  have hws : ∀ c ∈ natRepr v, isWS c = false := by
    intro c hc
    obtain ⟨d, hd, rfl⟩ := natRepr_mem v c hc
    exact digitChar_not_ws hd
  simp only [save_run_number, load_run_number]
  rw [hrepr, trimChars_of_no_ws _ hws, parseInt_natRepr]

/-- C10: a page without the no-results message whose title carries the
`Kursliste` marker parses as a successful dictionary even with count 0 and
no data rows, and such an attempt ends the run's inner loop immediately as a
success carrying an empty record list. -/
theorem empty_result_list_is_success (p : Page) (m : Nat)
    (herr : hasNoCoursesMsg p = false) (htitle : titleHasMarker p = true)
    (hcount : firstIntOfSummary p = none) (hrows : p.rows = [])
    (hm : 1 ≤ m) :
    parse_results p =
        { success := true, has_courses := true, course_count := some 0,
          courses := some [] } ∧
      (runOnce (fun _ => AttemptResult.parsed (parse_results p)) m).attempts = 1 ∧
      (runOnce (fun _ => AttemptResult.parsed (parse_results p)) m).successCalls = 1 ∧
      (runOnce (fun _ => AttemptResult.parsed (parse_results p)) m).result =
        some (parse_results p) := by
  have hzero : extractedCount p = 0 := by
    unfold extractedCount
    unfold firstIntOfSummary at hcount
    cases hfd : firstDigitRun (countText p).data with
    | none => rfl
    | some ds =>
      rw [hfd] at hcount
      exact absurd hcount (by simp)
  have hpr : parse_results p =
      { success := true, has_courses := true, course_count := some 0,
        courses := some [] } := by
    rw [parse_results_positive p herr htitle, hrows, hzero]
    rfl
  have hsucc : (parse_results p).success = true := by
    rw [hpr]
  obtain ⟨m', rfl⟩ : ∃ m', m = m' + 1 := ⟨m - 1, by omega⟩
  have hloop : innerLoop (fun _ => AttemptResult.parsed (parse_results p))
      (m' + 1) 0 [] [] 0 = ⟨1, [], [], 0, some (parse_results p)⟩ := by
    rw [innerLoop]
    simp [hsucc]
  have hrun : runOnce (fun _ => AttemptResult.parsed (parse_results p)) (m' + 1) =
      ⟨1, [], [], 0, some (parse_results p), 1, 0⟩ := by
    unfold runOnce
    rw [hloop]
    rfl
  exact ⟨hpr, by rw [hrun], by rw [hrun], by rw [hrun]⟩

theorem empty_result_list_is_success_witness :
    hasNoCoursesMsg emptyResultsPage = false ∧
      titleHasMarker emptyResultsPage = true ∧
      firstIntOfSummary emptyResultsPage = none ∧
      emptyResultsPage.rows = [] ∧
      (1 : Nat) ≤ 5 ∧
      (parse_results emptyResultsPage =
          { success := true, has_courses := true, course_count := some 0,
            courses := some [] } ∧
        (runOnce (fun _ => AttemptResult.parsed (parse_results emptyResultsPage)) 5).attempts = 1 ∧
        (runOnce (fun _ => AttemptResult.parsed (parse_results emptyResultsPage)) 5).successCalls = 1 ∧
        (runOnce (fun _ => AttemptResult.parsed (parse_results emptyResultsPage)) 5).result =
          some (parse_results emptyResultsPage)) :=
  ⟨by decide, by decide, by decide, rfl, by omega,
    empty_result_list_is_success emptyResultsPage 5
      (by decide) (by decide) (by decide) rfl (by omega)⟩

end ScoutBot
